import Mathlib

/-!
Verification of the receipt reconciliation pipeline.

The development shallowly embeds the pipeline of
`src/features/reconciliation/receipt_reconciler.py` and its collaborators
(`receipt_validator.py`, `receipt_extractor.py`, `validation_tools.py`,
`database/oracle_connection.py`).  External collaborators (the database
gateway and the LLM agent backend) are modelled as fields of an
environment record: the gateway query returns `Option (List Receipt)`
(`none` models the driver returning `None` on failure), the agent
invocation returns `Except String String` (exception or output text), and
the parameterized update returns `Except String Bool`.  Python dictionary
lookups that may be absent are modelled with `Option`; float-valued
configuration thresholds are modelled as rationals.
-/

namespace LXDB

/-- One receipt row snapshot, as the dictionary built by
`ReceiptExtractor.get_unreconciled_receipts` (keys that the pipeline and
the duplicate-check tool read).  A `none` field models an absent key or a
SQL NULL. -/
structure Receipt where
  id : Option Int
  receiptNumber : Option String
  amount : Option ℚ
  status : Option String
  employerId : Option Int
  month : Option Int
  year : Option Int
  receiptType : Option Int
  penaltyId : Option Int
  adjustmentId : Option Int
deriving DecidableEq

/-- Configuration values read from `config/reconciliation_config.py`:
`MIN_CONFIDENCE_SCORE`, `AUTO_RECONCILE_THRESHOLD`, `ENABLE_AUTO_RECONCILE`. -/
structure Config where
  minConfidenceScore : ℚ
  autoReconcileThreshold : ℚ
  enableAutoReconcile : Bool

/-- External collaborators of one reconciliation run.  `connectOk` is the
outcome of `db_connection.connect()`; `queryResult` the outcome of
`execute_query` for the extraction SELECT (`none` models the `None`
returned on a query error); `agentResult` the agent invocation per record
(`Except.error` models a raised exception); `isConnected` the gateway
health check used by `update_receipt_status`; `updateResult` the outcome
of `execute_update` (`Except.error` models a raised exception). -/
structure Env where
  connectOk : Bool
  queryResult : Option (List Receipt)
  agentResult : Receipt → Except String String
  isConnected : Bool
  updateResult : Option Int → Except String Bool

/-- Substring test on character lists; embeds the Python `in` operator on
strings as used in `_parse_agent_response`. -/
def containsSub (needle : List Char) : List Char → Bool
  | [] => needle.isPrefixOf []
  | c :: rest => needle.isPrefixOf (c :: rest) || containsSub needle rest

/-- Case-insensitive marker test: Python `needle in output.upper()` with an
upper-case `needle` literal; the upper-casing is applied character-wise. -/
def containsUpper (needle output : String) : Bool :=
  containsSub needle.toList (output.toList.map Char.toUpper)

/-- Whitespace class of the regex token `\s` (ASCII range). -/
def isPySpace (c : Char) : Bool :=
  c = ' ' || c = '\t' || c = '\n' || c = '\r' || c = '\x0b' || c = '\x0c'

/-- Numeric value of a digit run, as Python `int` applied to the captured
group. -/
def natOfDigits (ds : List Char) : Nat :=
  ds.foldl (fun acc c => acc * 10 + (c.toNat - '0'.toNat)) 0

/-- Does one of the alternatives `%`, `confidence`, `score` (case
insensitive) match at the head of `cs`?  This is the tail of the regex
`(\d+)\s*(?:%|confidence|score)` after the digits and spaces. -/
def confKeywordAt (cs : List Char) : Bool :=
  cs.head? = some '%'
    || "confidence".toList.isPrefixOf (cs.map Char.toLower)
    || "score".toList.isPrefixOf (cs.map Char.toLower)

/-- Leftmost match of the Python regex search
`re.search(r'(\d+)\s*(?:%|confidence|score)', output, re.IGNORECASE)` in
`_parse_agent_response`, returning the captured digit group as a number.
At each starting position holding a digit the maximal digit run is taken
(the alternatives after `\s*` cannot begin with a digit or whitespace, so
the greedy `\d+` and `\s*` never backtrack into a successful shorter
match), then all whitespace is skipped and one alternative must match. -/
def findConfidence : List Char → Option Nat
  | [] => none
  | c :: rest =>
    if c.isDigit then
      let ds := (c :: rest).takeWhile Char.isDigit
      let after := (c :: rest).dropWhile Char.isDigit
      if confKeywordAt (after.dropWhile isPySpace) then some (natOfDigits ds)
      else findConfidence rest
    else findConfidence rest

/-- Structured validation result of `ReceiptValidator`: `status`,
`confidence` and `reasoning` as built by `_parse_agent_response` and by
the exception handler of `validate_receipt`.  The `issues` list and the
copied receipt identifiers of the Python dictionary are not modelled: no
stated property concerns them and nothing downstream in the pipeline
reads them for control flow. -/
structure Verdict where
  status : String
  confidence : Nat
  reasoning : String
deriving DecidableEq

/-- Status extraction of `_parse_agent_response`: default `NEEDS_REVIEW`;
`VALID` when the upper-cased output mentions `VALID` but not `INVALID`;
else `INVALID` when it mentions `INVALID`. -/
def parseStatus (output : String) : String :=
  if containsUpper "VALID" output && !containsUpper "INVALID" output then "VALID"
  else if containsUpper "INVALID" output then "INVALID"
  else "NEEDS_REVIEW"

/-- Confidence extraction of `_parse_agent_response`: the captured number
when the score pattern matches, else the default 50. -/
def parseConfidence (output : String) : Nat :=
  match findConfidence output.toList with
  | some n => n
  | none => 50

/-- `ReceiptValidator._parse_agent_response` on the agent output text. -/
def parse_agent_response (output : String) : Verdict :=
  { status := parseStatus output
    confidence := parseConfidence output
    reasoning := output }

/-- `ReceiptValidator.validate_receipt`: run the agent; any exception is
converted into an `ERROR` verdict with confidence 0 and the error
description as reasoning; otherwise the output text is parsed. -/
def validate_receipt (env : Env) (r : Receipt) : Verdict :=
  match env.agentResult r with
  | Except.error e =>
      { status := "ERROR", confidence := 0, reasoning := "Validation error: " ++ e }
  | Except.ok output => parse_agent_response output

/-- `ReceiptReconciler.update_receipt_status`: refuse when the gateway is
not connected; otherwise run the parameterized UPDATE, converting a raised
exception into `false`. -/
def update_receipt_status (env : Env) (receiptId : Option Int) : Bool :=
  if !env.isConnected then false
  else
    match env.updateResult receiptId with
    | Except.error _ => false
    | Except.ok b => b

/-- Result bucket a processed record is counted into. -/
inductive Bucket
  | reconciled
  | failed
  | needsReview
deriving DecidableEq

/-- Marker for the `results["reconciled"] += 1` branch. -/
def Bucket.isReconciled : Bucket → Bool
  | .reconciled => true
  | _ => false

/-- Marker for the `results["failed"] += 1` branches. -/
def Bucket.isFailed : Bucket → Bool
  | .failed => true
  | _ => false

/-- Marker for the `results["needs_review"] += 1` branches. -/
def Bucket.isNeedsReview : Bucket → Bool
  | .needsReview => true
  | _ => false

/-- Outcome of the decision step for one record: the `action` string put
into the detail entry, the counter bucket incremented, and how many
guarded status updates were attempted. -/
structure Decision where
  action : String
  bucket : Bucket
  updatesAttempted : Nat
deriving DecidableEq

/-- The decision step of `reconcile_receipts` (the branch on the verdict
status and confidence at lines 109-130 of `receipt_reconciler.py`).  The
guarded update is attempted exactly in the auto-reconcile branch. -/
def decideRecord (cfg : Config) (env : Env) (receiptId : Option Int) (v : Verdict) : Decision :=
  if v.status = "VALID" ∧ cfg.minConfidenceScore ≤ (v.confidence : ℚ) then
    if cfg.autoReconcileThreshold ≤ (v.confidence : ℚ) ∧ cfg.enableAutoReconcile = true then
      if update_receipt_status env receiptId then
        { action := "reconciled", bucket := Bucket.reconciled, updatesAttempted := 1 }
      else
        { action := "update_failed", bucket := Bucket.failed, updatesAttempted := 1 }
    else
      { action := "needs_review", bucket := Bucket.needsReview, updatesAttempted := 0 }
  else if v.status = "INVALID" then
    { action := "invalid", bucket := Bucket.failed, updatesAttempted := 0 }
  else
    { action := "needs_review", bucket := Bucket.needsReview, updatesAttempted := 0 }

/-- One entry of the per-record `details` list of the run result. -/
structure ResultDetail where
  receipt_id : Option Int
  receipt_number : Option String
  status : String
  confidence : Nat
  reasoning : String
  action : String
deriving DecidableEq

/-- One iteration of the processing loop of `reconcile_receipts`: validate
the record, decide, and build the detail entry; also reports the bucket
incremented and the number of update attempts. -/
def recordOutcome (cfg : Config) (env : Env) (r : Receipt) : ResultDetail × Bucket × Nat :=
  let v := validate_receipt env r
  let d := decideRecord cfg env r.id v
  ({ receipt_id := r.id
     receipt_number := r.receiptNumber
     status := v.status
     confidence := v.confidence
     reasoning := v.reasoning
     action := d.action },
   d.bucket, d.updatesAttempted)

/-- The dictionary returned by `reconcile_receipts`; `Option` fields model
keys present only in some of the three return shapes. -/
structure RunResult where
  success : Bool
  error : Option String
  message : Option String
  processed : Nat
  reconciled : Nat
  failed : Nat
  needs_review : Nat
  details : List ResultDetail
deriving DecidableEq

/-- The early return of `reconcile_receipts` when `connect()` fails. -/
def connectFailureResult : RunResult :=
  { success := false
    error := some "Failed to connect to database"
    message := none
    processed := 0, reconciled := 0, failed := 0, needs_review := 0
    details := [] }

/-- The early return of `reconcile_receipts` when extraction yields no
records. -/
def emptyRunResult : RunResult :=
  { success := true
    error := none
    message := some "No unreconciled receipts found"
    processed := 0, reconciled := 0, failed := 0, needs_review := 0
    details := [] }

/-- `ReceiptExtractor.get_unreconciled_receipts` with the run connection
already supplied: a `None` query result and an empty row list both take
the `if not results` branch and return the empty list; otherwise the rows
pass through (the tuple-to-dictionary conversion is the identity here
because rows are already modelled structured). -/
def get_unreconciled_receipts (env : Env) : List Receipt :=
  match env.queryResult with
  | none => []
  | some [] => []
  | some rows => rows

/-- Python list slicing `xs[:n]` for a possibly negative `n`. -/
def pySlice {α : Type} (n : Int) (xs : List α) : List α :=
  if 0 ≤ n then xs.take n.toNat
  else xs.take (xs.length - (-n).toNat)

/-- `ReceiptReconciler.reconcile_receipts`: connect, extract, truncate by
the (truthy) limit, then validate and decide each record, accumulating
counters and detail entries.  The accumulation loop is expressed as a map
over the record list followed by counting each bucket. -/
def reconcile_receipts (cfg : Config) (env : Env) (limit : Option Int) : RunResult :=
  if !env.connectOk then connectFailureResult
  else
    let receipts := get_unreconciled_receipts env
    if receipts.isEmpty then emptyRunResult
    else
      let truncated :=
        match limit with
        | none => receipts
        | some n => if n = 0 then receipts else pySlice n receipts
      let outcomes := truncated.map (recordOutcome cfg env)
      { success := true
        error := none
        message := none
        processed := truncated.length
        reconciled := outcomes.countP (fun o => o.2.1.isReconciled)
        failed := outcomes.countP (fun o => o.2.1.isFailed)
        needs_review := outcomes.countP (fun o => o.2.1.isNeedsReview)
        details := outcomes.map (fun o => o.1) }

/-- Columns of `CFMSPRO.RECEIPT_DETAILS` touched by the guarded UPDATE
statement of `update_receipt_status` (lines 162-169 of
`receipt_reconciler.py`). -/
structure DbRow where
  id : Int
  status : String
  updatedAt : Option Int
  reconciledAt : Option Int
  reconciledBy : Option String
deriving DecidableEq

/-- Effect of the UPDATE statement of `update_receipt_status` on the
store at timestamp `now` (the value of SYSTIMESTAMP): every row whose ID
matches gets the new status, both timestamps set to `now`, and the fixed
actor marker SYSTEM. -/
def applyStatusUpdate (db : List DbRow) (receiptId : Int) (newStatus : String)
    (now : Int) : List DbRow :=
  db.map fun row =>
    if row.id = receiptId then
      { row with
        status := newStatus
        updatedAt := some now
        reconciledAt := some now
        reconciledBy := some "SYSTEM" }
    else row

/-- SQL equality `col = :param` under three-valued logic, reduced to a
boolean row filter: true only when both sides are non-null and equal. -/
def sqlEq {α : Type} [DecidableEq α] : Option α → Option α → Bool
  | some x, some y => decide (x = y)
  | _, _ => false

/-- SQL inequality `col != :param`: true only when both sides are
non-null and different. -/
def sqlNe {α : Type} [DecidableEq α] : Option α → Option α → Bool
  | some x, some y => decide (x ≠ y)
  | _, _ => false

/-- The null-aware comparison
`(col = :p OR (col IS NULL AND :p IS NULL))` used for the penalty and
adjustment linkage columns of the duplicate query. -/
def nullAwareEq {α : Type} [DecidableEq α] (a b : Option α) : Bool :=
  sqlEq a b || (decide (a = none) && decide (b = none))

/-- The WHERE clause of the duplicate query in `check_duplicate`
(`validation_tools.py` lines 180-192), applied to one stored row against
the record under validation. -/
def dupMatches (r row : Receipt) : Bool :=
  sqlEq row.status (some "R")
    && sqlNe row.id r.id
    && sqlEq row.month r.month
    && sqlEq row.receiptNumber r.receiptNumber
    && sqlEq row.year r.year
    && sqlEq row.employerId r.employerId
    && sqlEq row.receiptType r.receiptType
    && nullAwareEq row.penaltyId r.penaltyId
    && nullAwareEq row.adjustmentId r.adjustmentId

/-- Python truthiness of an optional integer field (`None` and 0 are
falsy). -/
def truthyOptInt : Option Int → Bool
  | none => false
  | some n => decide (n ≠ 0)

/-- Python truthiness of an optional string field (`None` and the empty
string are falsy). -/
def truthyOptStr : Option String → Bool
  | none => false
  | some s => decide (s ≠ "")

/-- Python truthiness of an optional numeric amount (`None` and 0 are
falsy). -/
def truthyOptRat : Option ℚ → Bool
  | none => false
  | some q => decide (q ≠ 0)

/-- The guard `all([receipt_id, receipt_number, amount, employer_id,
month, year, receipt_type])` of `check_duplicate`: every field the tool
requires is present and truthy. -/
def hasDupKeyData (r : Receipt) : Bool :=
  truthyOptInt r.id && truthyOptStr r.receiptNumber && truthyOptRat r.amount
    && truthyOptInt r.employerId && truthyOptInt r.month && truthyOptInt r.year
    && truthyOptInt r.receiptType

/-- The reconciled-rows store visible to `check_duplicate` through the
gateway: a connection health flag and the stored rows the duplicate query
scans. -/
structure Store where
  connected : Bool
  rows : List Receipt

/-- The five return shapes of `check_duplicate`, one constructor per
return statement of the tool. -/
inductive DupCheckResult
  | warningNoConnection
  | warningInsufficientData
  | duplicate (count : Nat)
  | unique
  | queryError
deriving DecidableEq

/-- `check_duplicate` of `validation_tools.py`: warn without a gateway,
warn when a required field is missing, convert a query failure (here: the
gateway reporting itself disconnected, which makes `get_connection`
return `None` and the cursor access raise) into the error string, and
otherwise report a duplicate exactly when the counting query finds at
least one matching row. -/
def check_duplicate (conn : Option Store) (r : Receipt) : DupCheckResult :=
  match conn with
  | none => DupCheckResult.warningNoConnection
  | some st =>
    if !hasDupKeyData r then DupCheckResult.warningInsufficientData
    else if !st.connected then DupCheckResult.queryError
    else
      let cnt := (st.rows.filter (fun row => dupMatches r row)).length
      if 0 < cnt then DupCheckResult.duplicate cnt else DupCheckResult.unique

/-! Concrete fixtures used to instantiate the theorems below. -/

/-- Default configuration values of `reconciliation_config.py`:
minimum confidence 80, auto-reconcile threshold 90, auto-reconcile
enabled. -/
def cfg0 : Config :=
  { minConfidenceScore := 80, autoReconcileThreshold := 90, enableAutoReconcile := true }

/-- A fully populated unreconciled receipt snapshot. -/
def r0 : Receipt :=
  { id := some 1, receiptNumber := some "RN1", amount := some 100, status := some "U"
    employerId := some 2, month := some 3, year := some 2024, receiptType := some 1
    penaltyId := none, adjustmentId := none }

/-- A second receipt snapshot with a different identity. -/
def r1 : Receipt :=
  { r0 with id := some 2, receiptNumber := some "RN2" }

/-- Environment with a healthy gateway and a succeeding update. -/
def envOkUpdate : Env :=
  { connectOk := true, queryResult := some [], agentResult := fun _ => Except.ok ""
    isConnected := true, updateResult := fun _ => Except.ok true }

/-- Environment whose initial connection attempt fails. -/
def envConnFail : Env :=
  { envOkUpdate with connectOk := false }

/-- Environment whose extraction query fails (the gateway returns null). -/
def envNullQuery : Env :=
  { envOkUpdate with queryResult := none }

/-- Environment whose extraction query succeeds with zero rows. -/
def envZeroRows : Env :=
  { envOkUpdate with queryResult := some [] }

/-- Environment where the agent invocation raises an exception. -/
def envAgentFails : Env :=
  { envOkUpdate with
    queryResult := some [r0]
    agentResult := fun _ => Except.error "boom" }

/-- Environment extracting one receipt whose validation scores a high
VALID confidence. -/
def envOneReceipt : Env :=
  { envOkUpdate with
    queryResult := some [r0]
    agentResult := fun _ => Except.ok "VALID 95% confidence" }

/-- Environment extracting two receipts. -/
def envTwoReceipts : Env :=
  { envOneReceipt with queryResult := some [r0, r1] }

/-- Environment where the agent output quotes a percentage above 100. -/
def envOverconfident : Env :=
  { envOkUpdate with
    queryResult := some [r0]
    agentResult := fun _ => Except.ok "VALID with 150% confidence" }

/-- A stored reconciled receipt sharing the duplicate key of `r0` under a
different identity, with both nullable linkage ids null. -/
def rowDup : Receipt :=
  { id := some 2, receiptNumber := some "RN1", amount := some 50, status := some "R"
    employerId := some 2, month := some 3, year := some 2024, receiptType := some 1
    penaltyId := none, adjustmentId := none }

/-- A connected store containing exactly the reconciled row `rowDup`. -/
def storeWithDup : Store :=
  { connected := true, rows := [rowDup] }

/-- A row already in the reconciled status, stamped earlier by a different
actor. -/
def rowReconciledByAdmin : DbRow :=
  { id := 1, status := "R", updatedAt := some 0, reconciledAt := some 0
    reconciledBy := some "ADMIN" }

/-! Theorems. -/

/-- A prefix occurrence is a substring occurrence. -/
theorem containsSub_of_isPrefixOf (n l : List Char) (h : n.isPrefixOf l = true) :
    containsSub n l = true := by
  cases l with
  | nil => exact h
  | cons c rest => simp [containsSub, h]

/-- Every occurrence of the INVALID marker contains an occurrence of the
VALID marker, because the latter is a suffix of the former. -/
theorem containsSub_valid_of_invalid (l : List Char) :
    containsSub "INVALID".toList l = true → containsSub "VALID".toList l = true := by
  induction l with
  | nil => intro h; exact absurd h (by decide)
  | cons c rest ih =>
    intro h
    rw [show "INVALID".toList = 'I' :: 'N' :: "VALID".toList from rfl] at h
    simp only [containsSub, Bool.or_eq_true] at h ⊢
    rcases h with h | h
    · right
      simp only [List.isPrefixOf, Bool.and_eq_true] at h
      obtain ⟨-, h⟩ := h
      cases rest with
      | nil => exact absurd h (by simp)
      | cons d rest2 =>
        simp only [List.isPrefixOf, Bool.and_eq_true] at h
        obtain ⟨-, h⟩ := h
        simp only [containsSub, Bool.or_eq_true]
        exact Or.inr (containsSub_of_isPrefixOf _ _ h)
    · exact Or.inr (ih h)

/-- The detail list of a run result always has one entry per processed
record, in every branch of `reconcile_receipts`. -/
theorem reconcile_details_length (cfg : Config) (env : Env) (limit : Option Int) :
    (reconcile_receipts cfg env limit).details.length
      = (reconcile_receipts cfg env limit).processed := by
  by_cases hc : env.connectOk = true
  · by_cases he : (get_unreconciled_receipts env).isEmpty = true
    · simp [reconcile_receipts, hc, he, emptyRunResult]
    · simp [reconcile_receipts, hc, he, List.length_map]
  · rw [Bool.not_eq_true] at hc
    simp [reconcile_receipts, hc, connectFailureResult]

/-- A bucket satisfies exactly one of the three bucket markers. -/
theorem bucket_indicator (b : Bucket) :
    (if b.isReconciled = true then 1 else 0) + (if b.isFailed = true then 1 else 0)
      + (if b.isNeedsReview = true then 1 else 0) = 1 := by
  cases b <;> decide

/-- Each processed record is counted in exactly one of the three result
buckets. -/
theorem countP_buckets {α : Type} (f : α → ResultDetail × Bucket × Nat) (l : List α) :
    l.countP ((fun o => o.2.1.isReconciled) ∘ f) + l.countP ((fun o => o.2.1.isFailed) ∘ f)
      + l.countP ((fun o => o.2.1.isNeedsReview) ∘ f) = l.length := by
  induction l with
  | nil => rfl
  | cons a t ih =>
    simp only [List.countP_cons, List.length_cons, Function.comp]
    have hb := bucket_indicator (f a).2.1
    omega

/-- C1: the decision step of `reconcile_receipts` routes each verdict as
specified: a VALID verdict at or above both thresholds with
auto-reconcile enabled attempts exactly one guarded update, landing in
the reconciled bucket with action reconciled on success and in the failed
bucket with action update_failed on failure; a VALID verdict at or above
the minimum but below the auto-reconcile bar (or with the feature
disabled) lands in the needs-review bucket without an update; an INVALID
verdict lands in the failed bucket with action invalid without an update;
every other verdict lands in the needs-review bucket without an update. -/
theorem C1_decision_step (cfg : Config) (env : Env) (rid : Option Int) (v : Verdict) :
    (v.status = "VALID" → cfg.minConfidenceScore ≤ (v.confidence : ℚ) →
      cfg.autoReconcileThreshold ≤ (v.confidence : ℚ) → cfg.enableAutoReconcile = true →
      (decideRecord cfg env rid v).updatesAttempted = 1 ∧
      (update_receipt_status env rid = true →
        decideRecord cfg env rid v =
          { action := "reconciled", bucket := Bucket.reconciled, updatesAttempted := 1 }) ∧
      (update_receipt_status env rid = false →
        decideRecord cfg env rid v =
          { action := "update_failed", bucket := Bucket.failed, updatesAttempted := 1 })) ∧
    (v.status = "VALID" → cfg.minConfidenceScore ≤ (v.confidence : ℚ) →
      ¬(cfg.autoReconcileThreshold ≤ (v.confidence : ℚ) ∧ cfg.enableAutoReconcile = true) →
      decideRecord cfg env rid v =
        { action := "needs_review", bucket := Bucket.needsReview, updatesAttempted := 0 }) ∧
    (v.status = "INVALID" →
      decideRecord cfg env rid v =
        { action := "invalid", bucket := Bucket.failed, updatesAttempted := 0 }) ∧
    (¬(v.status = "VALID" ∧ cfg.minConfidenceScore ≤ (v.confidence : ℚ)) →
      v.status ≠ "INVALID" →
      decideRecord cfg env rid v =
        { action := "needs_review", bucket := Bucket.needsReview, updatesAttempted := 0 }) := by
  refine ⟨?_, ?_, ?_, ?_⟩
  · intro h1 h2 h3 h4
    refine ⟨?_, ?_, ?_⟩
    · by_cases hu : update_receipt_status env rid = true <;>
        simp [decideRecord, h1, h2, h3, h4, hu]
    · intro hu; simp [decideRecord, h1, h2, h3, h4, hu]
    · intro hu; simp [decideRecord, h1, h2, h3, h4, hu]
  · intro h1 h2 h3
    simp [decideRecord, h1, h2, h3]
  · intro h1
    have hnv : v.status ≠ "VALID" := by rw [h1]; decide
    simp [decideRecord, h1, hnv]
  · intro h1 h2
    simp [decideRecord, h1, h2]

/-- Witness for C1 at the default configuration: a VALID verdict with
confidence 95 and a succeeding guarded update is auto-reconciled. -/
theorem C1_decision_step_witness :
    decideRecord cfg0 envOkUpdate (some 1)
        { status := "VALID", confidence := 95, reasoning := "ok" }
      = { action := "reconciled", bucket := Bucket.reconciled, updatesAttempted := 1 } :=
  (((C1_decision_step cfg0 envOkUpdate (some 1)
        { status := "VALID", confidence := 95, reasoning := "ok" }).1
      rfl (by norm_num [cfg0]) (by norm_num [cfg0]) rfl).2.1) rfl

/-- C2: an exception during a record validation yields an ERROR verdict
with confidence 0 and the error description as reasoning; this record is
counted in the needs-review bucket with action needs_review; and in every
run the detail list covers every processed record, so per-record failures
never truncate the structured result. -/
theorem C2_validation_error_contained (cfg : Config) (env : Env) (r : Receipt) (e : String)
    (h : env.agentResult r = Except.error e) :
    validate_receipt env r =
      { status := "ERROR", confidence := 0, reasoning := "Validation error: " ++ e } ∧
    (recordOutcome cfg env r).2.1 = Bucket.needsReview ∧
    (recordOutcome cfg env r).1.action = "needs_review" ∧
    ∀ limit, (reconcile_receipts cfg env limit).details.length
      = (reconcile_receipts cfg env limit).processed := by
  have hne : ("ERROR" : String) ≠ "VALID" := by decide
  have hni : ("ERROR" : String) ≠ "INVALID" := by decide
  have hv : validate_receipt env r =
      { status := "ERROR", confidence := 0, reasoning := "Validation error: " ++ e } := by
    simp [validate_receipt, h]
  refine ⟨hv, ?_, ?_, fun limit => reconcile_details_length cfg env limit⟩
  · simp [recordOutcome, hv, decideRecord, hne, hni]
  · simp [recordOutcome, hv, decideRecord, hne, hni]

/-- Witness for C2: an agent raising an exception produces the ERROR
verdict and the needs-review bucket. -/
theorem C2_validation_error_contained_witness :
    validate_receipt envAgentFails r0 =
      { status := "ERROR", confidence := 0, reasoning := "Validation error: boom" } ∧
    (recordOutcome cfg0 envAgentFails r0).2.1 = Bucket.needsReview :=
  ⟨(C2_validation_error_contained cfg0 envAgentFails r0 "boom" rfl).1,
   (C2_validation_error_contained cfg0 envAgentFails r0 "boom" rfl).2.1⟩

/-- C3: a failed connection returns the failure result with success
false, an error message and all-zero counters, independently of the
query, agent and update collaborators (so nothing is extracted or
validated); a successful connection with a null or empty extraction
returns the successful empty-run result, which differs from the
connection-failure result. -/
theorem C3_connect_failure_vs_empty_run (cfg : Config) (env : Env) (limit : Option Int) :
    (env.connectOk = false → reconcile_receipts cfg env limit = connectFailureResult) ∧
    (env.connectOk = true → (env.queryResult = none ∨ env.queryResult = some []) →
      reconcile_receipts cfg env limit = emptyRunResult) ∧
    connectFailureResult.success = false ∧
    connectFailureResult.error = some "Failed to connect to database" ∧
    connectFailureResult.processed = 0 ∧ connectFailureResult.reconciled = 0 ∧
    connectFailureResult.failed = 0 ∧ connectFailureResult.needs_review = 0 ∧
    emptyRunResult.success = true ∧
    emptyRunResult.message = some "No unreconciled receipts found" ∧
    emptyRunResult.processed = 0 ∧
    emptyRunResult ≠ connectFailureResult := by
  refine ⟨?_, ?_, by decide, by decide, by decide, by decide, by decide, by decide,
    by decide, by decide, by decide, by decide⟩
  · intro h
    simp [reconcile_receipts, h]
  · intro hc hq
    have hnil : get_unreconciled_receipts env = [] := by
      rcases hq with h | h <;> simp [get_unreconciled_receipts, h]
    simp [reconcile_receipts, hc, hnil]

/-- Witness for C3: a concrete failed connection yields the failure
result, and a concrete null extraction yields the empty-run result. -/
theorem C3_connect_failure_vs_empty_run_witness :
    reconcile_receipts cfg0 envConnFail none = connectFailureResult ∧
    reconcile_receipts cfg0 envNullQuery none = emptyRunResult :=
  ⟨(C3_connect_failure_vs_empty_run cfg0 envConnFail none).1 rfl,
   (C3_connect_failure_vs_empty_run cfg0 envNullQuery none).2.1 rfl (Or.inl rfl)⟩

/-- C4 counterexample: with the same healthy connection, a null query
result and a zero-row query result produce the same extraction output and
the same pipeline run result, so the extraction caller does not treat the
two cases differently in any output of the model. -/
theorem C4_counterexample :
    get_unreconciled_receipts envNullQuery = get_unreconciled_receipts envZeroRows ∧
    reconcile_receipts cfg0 envNullQuery none = reconcile_receipts cfg0 envZeroRows none :=
  ⟨rfl, rfl⟩

/-- C4 amended: the extraction caller treats a null query result exactly
like a zero-row result — `get_unreconciled_receipts` returns the empty
list for both, and `reconcile_receipts` returns the same run result for
both, whatever the rest of the environment. -/
theorem C4_null_query_equals_zero_rows (cfg : Config) (env : Env) (limit : Option Int) :
    get_unreconciled_receipts { env with queryResult := none }
      = get_unreconciled_receipts { env with queryResult := some [] } ∧
    reconcile_receipts cfg { env with queryResult := none } limit
      = reconcile_receipts cfg { env with queryResult := some [] } limit := by
  refine ⟨rfl, ?_⟩
  by_cases hc : env.connectOk = true <;>
    [skip; rw [Bool.not_eq_true] at hc] <;>
    simp [reconcile_receipts, hc, get_unreconciled_receipts]

/-- C5: status parsing gives the INVALID marker precedence over a bare
VALID mention, the status is VALID exactly when VALID occurs without
INVALID, a text with no VALID marker parses to NEEDS_REVIEW, the
confidence defaults to 50 exactly when the numeric score pattern is
absent, and in particular an output with neither marker nor score pattern
(such as the iteration-cap message) parses to NEEDS_REVIEW with the
defaulted confidence. -/
theorem C5_parse_policy :
    (∀ output : String, containsUpper "INVALID" output = true →
      (parse_agent_response output).status = "INVALID") ∧
    (∀ output : String, containsUpper "VALID" output = true →
      containsUpper "INVALID" output = false →
      (parse_agent_response output).status = "VALID") ∧
    (∀ output : String, containsUpper "VALID" output = false →
      (parse_agent_response output).status = "NEEDS_REVIEW") ∧
    (∀ output : String, (parse_agent_response output).status = "VALID" ↔
      containsUpper "VALID" output = true ∧ containsUpper "INVALID" output = false) ∧
    (∀ output : String, findConfidence output.toList = none →
      (parse_agent_response output).confidence = 50) ∧
    (∀ output : String, ∀ n, findConfidence output.toList = some n →
      (parse_agent_response output).confidence = n) ∧
    (∀ output : String, containsUpper "VALID" output = false →
      findConfidence output.toList = none →
      (parse_agent_response output).status = "NEEDS_REVIEW"
        ∧ (parse_agent_response output).confidence = 50) := by
  have hinv : ∀ output : String, containsUpper "VALID" output = false →
      containsUpper "INVALID" output = false := by
    intro output h
    cases hi : containsUpper "INVALID" output with
    | false => rfl
    | true =>
      rw [containsUpper] at hi h
      have := containsSub_valid_of_invalid (output.toList.map Char.toUpper) hi
      rw [h] at this
      exact absurd this (by decide)
  have hdefault : ∀ output : String, containsUpper "VALID" output = false →
      (parse_agent_response output).status = "NEEDS_REVIEW" := by
    intro output h
    simp [parse_agent_response, parseStatus, h, hinv output h]
  have hconf : ∀ output : String, findConfidence output.toList = none →
      (parse_agent_response output).confidence = 50 := by
    intro output h
    have h2 : findConfidence output.data = none := h
    simp [parse_agent_response, parseConfidence, h2]
  refine ⟨?_, ?_, hdefault, ?_, hconf, ?_, fun output h1 h2 => ⟨hdefault output h1, hconf output h2⟩⟩
  · intro output h
    simp [parse_agent_response, parseStatus, h]
  · intro output h1 h2
    simp [parse_agent_response, parseStatus, h1, h2]
  · intro output
    constructor
    · intro h
      cases h1 : containsUpper "VALID" output with
      | false =>
        rw [hdefault output h1] at h
        exact absurd h (by decide)
      | true =>
        cases h2 : containsUpper "INVALID" output with
        | false => exact ⟨rfl, rfl⟩
        | true =>
          have hs : (parse_agent_response output).status = "INVALID" := by
            simp [parse_agent_response, parseStatus, h2]
          rw [hs] at h
          exact absurd h (by decide)
    · rintro ⟨h1, h2⟩
      simp [parse_agent_response, parseStatus, h1, h2]
  · intro output n h
    have h2 : findConfidence output.data = some n := h
    simp [parse_agent_response, parseConfidence, h2]

/-- Witness for C5 on concrete outputs: a text with both markers parses
INVALID, a pure VALID text parses VALID, and the iteration-cap message of
the agent executor parses to NEEDS_REVIEW with the defaulted confidence
50. -/
theorem C5_parse_policy_witness :
    (parse_agent_response "Result: INVALID though partially VALID").status = "INVALID" ∧
    (parse_agent_response "VALID: all checks passed").status = "VALID" ∧
    (parse_agent_response "Agent stopped due to iteration limit or time limit.").status
      = "NEEDS_REVIEW" ∧
    (parse_agent_response "Agent stopped due to iteration limit or time limit.").confidence
      = 50 :=
  ⟨C5_parse_policy.1 "Result: INVALID though partially VALID" (by decide),
   C5_parse_policy.2.1 "VALID: all checks passed" (by decide) (by decide),
   (C5_parse_policy.2.2.2.2.2.2 "Agent stopped due to iteration limit or time limit."
      (by decide) (by decide)).1,
   (C5_parse_policy.2.2.2.2.2.2 "Agent stopped due to iteration limit or time limit."
      (by decide) (by decide)).2⟩

/-- C6 (code bug): an agent output quoting a percentage above 100 is
parsed without clamping, so `validate_receipt` produces a verdict whose
confidence 150 lies outside the documented range of 0 to 100. -/
theorem C6_confidence_out_of_range :
    (validate_receipt envOverconfident r0).confidence = 150 ∧
    ¬((validate_receipt envOverconfident r0).confidence ≤ 100) := by
  exact ⟨by decide, by decide⟩

/-- C7 counterexample: with one extracted record and the limit 0 the
processed count is 1, not min(0, 1) = 0 — a zero limit is falsy in the
`if limit` guard, so no truncation happens. -/
theorem C7_counterexample :
    (reconcile_receipts cfg0 envOneReceipt (some 0)).processed
      ≠ min (Int.toNat 0) (get_unreconciled_receipts envOneReceipt).length := by
  decide

/-- C7 amended: for every positive record-count limit, the records
validated are exactly the first N extracted records, so the processed
count is min(N, extracted) and the detail list is the image of that
prefix; a zero limit is falsy in the `if limit` guard and disables
truncation instead. -/
theorem C7_positive_limit_truncation (cfg : Config) (env : Env) (n : Int)
    (hn : 1 ≤ n) (hc : env.connectOk = true) :
    (reconcile_receipts cfg env (some n)).processed
      = min n.toNat (get_unreconciled_receipts env).length ∧
    (reconcile_receipts cfg env (some n)).details
      = ((get_unreconciled_receipts env).take n.toNat).map
          (fun r => (recordOutcome cfg env r).1) := by
  have hn0 : ¬(n = 0) := by omega
  have hpos : (0 : Int) ≤ n := by omega
  by_cases he : (get_unreconciled_receipts env).isEmpty = true
  · have hnil : get_unreconciled_receipts env = [] := List.isEmpty_iff.mp he
    constructor
    · simp [reconcile_receipts, hc, he, emptyRunResult, hnil]
    · simp [reconcile_receipts, hc, he, emptyRunResult, hnil]
  · constructor
    · simp [reconcile_receipts, hc, he, hn0, pySlice, hpos, List.length_take]
    · simp [reconcile_receipts, hc, he, hn0, pySlice, hpos, List.map_map]
      rfl

/-- Witness for C7: with two extracted records and limit 1, exactly one
record is processed, namely the first. -/
theorem C7_positive_limit_truncation_witness :
    (reconcile_receipts cfg0 envTwoReceipts (some 1)).processed
      = min (Int.toNat 1) (get_unreconciled_receipts envTwoReceipts).length :=
  (C7_positive_limit_truncation cfg0 envTwoReceipts 1 (by decide) rfl).1

/-- C8: with a connected store and every field the duplicate tool
requires present (truthy), the tool reports a duplicate exactly when the
store holds a row in the reconciled status, with a different non-null
identity, agreeing on receipt number, month, year, owning-party id and
receipt type, and matching the nullable penalty and adjustment linkage
ids null-awarely; a missing required field yields the insufficient-data
warning, not a failure; and the null-aware comparison is exactly optional
equality, so two null values on the same field count as a match. -/
theorem C8_duplicate_detection (st : Store) (r : Receipt) (hc : st.connected = true) :
    (hasDupKeyData r = true →
      ((∃ k, check_duplicate (some st) r = DupCheckResult.duplicate k)
        ↔ ∃ row ∈ st.rows, dupMatches r row = true)) ∧
    (hasDupKeyData r = false →
      check_duplicate (some st) r = DupCheckResult.warningInsufficientData) ∧
    (∀ a b : Option Int, nullAwareEq a b = true ↔ a = b) := by
  refine ⟨?_, ?_, ?_⟩
  · intro hd
    have hform : check_duplicate (some st) r =
        (if 0 < (st.rows.filter (fun row => dupMatches r row)).length then
          DupCheckResult.duplicate (st.rows.filter (fun row => dupMatches r row)).length
        else DupCheckResult.unique) := by
      simp [check_duplicate, hd, hc]
    constructor
    · rintro ⟨k, hk⟩
      rw [hform] at hk
      by_cases hcnt : 0 < (st.rows.filter (fun row => dupMatches r row)).length
      · obtain ⟨x, hx⟩ :=
          List.exists_mem_of_ne_nil _ (List.length_pos.mp hcnt)
        rcases List.mem_filter.mp hx with ⟨hmem, hp⟩
        exact ⟨x, hmem, hp⟩
      · rw [if_neg hcnt] at hk
        exact absurd hk (by simp)
    · rintro ⟨row, hmem, hp⟩
      have hin : row ∈ st.rows.filter (fun row => dupMatches r row) :=
        List.mem_filter.mpr ⟨hmem, hp⟩
      have hcnt : 0 < (st.rows.filter (fun row => dupMatches r row)).length :=
        List.length_pos.mpr (List.ne_nil_of_mem hin)
      exact ⟨_, by rw [hform, if_pos hcnt]⟩
  · intro hd
    simp [check_duplicate, hd]
  · intro a b
    cases a <;> cases b <;> simp [nullAwareEq, sqlEq]

/-- Witness for C8: the record under validation shares the duplicate key
of the stored reconciled row, with both penalty and both adjustment ids
null, and the tool reports a duplicate. -/
theorem C8_duplicate_detection_witness :
    ∃ k, check_duplicate (some storeWithDup) r0 = DupCheckResult.duplicate k :=
  ((C8_duplicate_detection storeWithDup r0 rfl).1 (by decide)).mpr
    ⟨rowDup, by decide, by decide⟩

/-- C9 counterexample: applying the guarded update to a row already in
the reconciled status but stamped earlier by a different actor changes
the row (the timestamps and the actor marker are re-stamped), so the
update is not a no-op on every already-reconciled record. -/
theorem C9_counterexample :
    applyStatusUpdate [rowReconciledByAdmin] 1 "R" 7 ≠ [rowReconciledByAdmin] := by
  decide

/-- C9 amended: the guarded update is idempotent as a store
transformation — re-applying `applyStatusUpdate` with the same identity,
status and timestamp yields the same final state as applying it once;
applying it to an already-reconciled record is a no-op only when the
timestamps and actor marker already carry the stamped values, because the
statement unconditionally re-stamps them. -/
theorem C9_update_idempotent (db : List DbRow) (receiptId : Int) (newStatus : String)
    (now : Int) :
    applyStatusUpdate (applyStatusUpdate db receiptId newStatus now) receiptId newStatus now
      = applyStatusUpdate db receiptId newStatus now := by
  unfold applyStatusUpdate
  rw [List.map_map]
  apply List.map_congr_left
  intro row _
  by_cases h : row.id = receiptId
  · simp [Function.comp, h]
  · simp [Function.comp, h]

/-- C10: every run that proceeds past extraction with at least one record
returns counters satisfying reconciled + failed + needs_review =
processed, and a detail list with exactly one entry per processed
record. -/
theorem C10_bucket_partition (cfg : Config) (env : Env) (limit : Option Int)
    (hc : env.connectOk = true) (hne : get_unreconciled_receipts env ≠ []) :
    (reconcile_receipts cfg env limit).reconciled + (reconcile_receipts cfg env limit).failed
        + (reconcile_receipts cfg env limit).needs_review
      = (reconcile_receipts cfg env limit).processed ∧
    (reconcile_receipts cfg env limit).details.length
      = (reconcile_receipts cfg env limit).processed := by
  have he : ¬((get_unreconciled_receipts env).isEmpty = true) := by
    simpa [List.isEmpty_iff] using hne
  constructor
  · simp [reconcile_receipts, hc, he, List.length_map]
    exact countP_buckets (recordOutcome cfg env) _
  · exact reconcile_details_length cfg env limit

/-- Witness for C10 on a one-record run. -/
theorem C10_bucket_partition_witness :
    (reconcile_receipts cfg0 envOneReceipt none).reconciled
        + (reconcile_receipts cfg0 envOneReceipt none).failed
        + (reconcile_receipts cfg0 envOneReceipt none).needs_review
      = (reconcile_receipts cfg0 envOneReceipt none).processed :=
  (C10_bucket_partition cfg0 envOneReceipt none rfl (by decide)).1

end LXDB
